import Mathlib

/-!
Verification development for the bento.rs rootless container runtime.

The definitions below are a shallow embedding of the Rust sources:
  crates/libbento/src/process.rs   (lifecycle engine, sync protocol, state store)
  crates/libbento/src/syscalls.rs  (namespace flag sets, mapping helpers)
  crates/libbento/src/fs.rs        (rootfs preparation and id validation)
  crates/bento-cli/src/main.rs     (command line surface)

External effects (pipe reads, process spawns, file system calls) are modelled
by oracle records ("worlds") giving the outcome of each fallible call, and
each embedded function returns its result together with the ordered list of
observable events it performed.  Concurrent process branches are serialised
parent-branch-first; every ordering fact proved below is causally forced
(a child's events follow its fork).
-/

namespace Bento

/- ======================================================================
   Clone flags (syscalls.rs)
   ====================================================================== -/

inductive CloneFlag
  | newuser
  | newpid
  | newns
  | newuts
  | newipc
  | newcgroup
deriving DecidableEq, Repr

/-- syscalls.rs `unshare_remaining_namespaces` (lines 91-96):
`let flags = CloneFlags::CLONE_NEWPID | CloneFlags::CLONE_NEWUTS | CloneFlags::CLONE_NEWNS;` -/
def unshare_remaining_namespaces_flags : List CloneFlag :=
  [CloneFlag.newpid, CloneFlag.newuts, CloneFlag.newns]

/-- Modelled from the spec: the flag set the spec claims is passed to the
second unshare call (PID, mount, UTS, IPC, cgroup).  Used only to compare
the spec sentence against `unshare_remaining_namespaces_flags`. -/
def spec_remaining_namespace_flags : List CloneFlag :=
  [CloneFlag.newpid, CloneFlag.newns, CloneFlag.newuts, CloneFlag.newipc, CloneFlag.newcgroup]

/- ======================================================================
   Rootfs population method (process.rs / main.rs)
   ====================================================================== -/

inductive RootfsPopulationMethod
  | manual
  | busyBox
deriving DecidableEq, Repr

/-- main.rs, create subcommand: the clap attribute on the
`population_method` argument is `default_value = "manual"` (line 33). -/
def populationMethodDefaultArg : String := "manual"

/-- main.rs lines 114-118:
`match population_method.as_str() { "manual" => Manual, _ => BusyBox }`. -/
def parsePopulationMethod (s : String) : RootfsPopulationMethod :=
  if s == "manual" then RootfsPopulationMethod.manual else RootfsPopulationMethod.busyBox

/-- Effective population method of a `create` invocation: clap substitutes the
declared default value when the user passes no `--population-method` flag. -/
def cliPopulationMethod : Option String → RootfsPopulationMethod
  | none => parsePopulationMethod populationMethodDefaultArg
  | some s => parsePopulationMethod s

/- ======================================================================
   Container state record and its JSON form (process.rs lines 25-83)
   ====================================================================== -/

structure ContainerState where
  id : String
  pid : Int
  status : String
  bundle_path : String
  created_at : String
  start_pipe_path : Option String
deriving DecidableEq, Repr

/-- `ContainerState::new` (process.rs lines 36-51): status starts as
`"created"`, `start_pipe_path` starts as `None`; the timestamp string is an
input from the clock. -/
def ContainerState.new (id : String) (pid : Int) (bundle_path created_at : String) :
    ContainerState :=
  { id := id, pid := pid, status := "created", bundle_path := bundle_path,
    created_at := created_at, start_pipe_path := none }

/-- JSON values, the target of serde serialization.  serde_json is modelled at
the JSON-value level: `to_string_pretty` followed by `from_str` corresponds to
`toJson` followed by `fromJson`. -/
inductive Json
  | null
  | str (s : String)
  | int (n : Int)
  | obj (fields : List (String × Json))
deriving Repr

def optionToJson : Option String → Json
  | none => Json.null
  | some s => Json.str s

/-- Serialization of `#[derive(Serialize)] struct ContainerState`: one JSON
object field per struct field, in declaration order; `Option::None`
serializes as JSON null. -/
def ContainerState.toJson (s : ContainerState) : Json :=
  Json.obj [("id", Json.str s.id),
            ("pid", Json.int s.pid),
            ("status", Json.str s.status),
            ("bundle_path", Json.str s.bundle_path),
            ("created_at", Json.str s.created_at),
            ("start_pipe_path", optionToJson s.start_pipe_path)]

def lookupField : List (String × Json) → String → Option Json
  | [], _ => none
  | (k, v) :: rest, key => if k == key then some v else lookupField rest key

def asStr : Json → Option String
  | Json.str s => some s
  | _ => none

def asInt : Json → Option Int
  | Json.int n => some n
  | _ => none

def asOptStr : Json → Option (Option String)
  | Json.null => some none
  | Json.str s => some (some s)
  | _ => none

/-- Deserialization of `#[derive(Deserialize)] struct ContainerState`: every
struct field must be present with the matching type; `start_pipe_path`
accepts null (None) or a string (Some). -/
def ContainerState.fromJson : Json → Option ContainerState
  | Json.obj fields => do
      let id ← (lookupField fields "id").bind asStr
      let pid ← (lookupField fields "pid").bind asInt
      let status ← (lookupField fields "status").bind asStr
      let bundle_path ← (lookupField fields "bundle_path").bind asStr
      let created_at ← (lookupField fields "created_at").bind asStr
      let start_pipe_path ← (lookupField fields "start_pipe_path").bind asOptStr
      some { id := id, pid := pid, status := status, bundle_path := bundle_path,
             created_at := created_at, start_pipe_path := start_pipe_path }
  | _ => none

/-- The ordered field names of the serialized state file. -/
def stateJsonFieldNames (s : ContainerState) : List String :=
  match ContainerState.toJson s with
  | Json.obj fields => fields.map Prod.fst
  | _ => []

/-- Modelled from the spec: the field list the spec's state-file schema
claims (section 6).  Used only to compare against `stateJsonFieldNames`. -/
def specStateFieldNames : List String :=
  ["id", "pid", "status", "bundle_path", "created_at", "start_pipe_path",
   "cgroup_path", "cgroup_enabled"]

/-- A concrete state value used in closed counterexample statements. -/
def sampleState : ContainerState :=
  { id := "demo", pid := 4242, status := "created", bundle_path := ".",
    created_at := "1700000000", start_pipe_path := some "/tmp/bento-start-demo" }

/- ======================================================================
   Container id validation (fs.rs prepare_rootfs, lines 47-49)
   ====================================================================== -/

def listPrefixOf : List Char → List Char → Bool
  | [], _ => true
  | _ :: _, [] => false
  | a :: as, b :: bs => a == b && listPrefixOf as bs

def listHasSub (needle : List Char) : List Char → Bool
  | [] => listPrefixOf needle []
  | b :: bs => listPrefixOf needle (b :: bs) || listHasSub needle bs

/-- Rust `str::contains(&str)`: the needle occurs as a contiguous substring. -/
def strContains (hay needle : String) : Bool :=
  listHasSub needle.toList hay.toList

/-- fs.rs lines 47-49, the only id validation in the codebase:
`if container_id.contains("..") || container_id.contains('/') { Err }`
(for a one-character pattern, `contains('/')` and `contains("/")`
coincide). -/
def invalidContainerId (id : String) : Bool :=
  strContains id ".." || strContains id "/"

/- ======================================================================
   Config (process.rs lines 115-124)
   ====================================================================== -/

structure Config where
  root_path : String
  args : List String
  hostname : String
  rootless : Bool
  bundle_path : String
  container_id : String
  population_method : RootfsPopulationMethod
deriving Repr

/-- process.rs line 343 / line 570: the container-visible path of the resume
FIFO, `/tmp/bento-start-<id>`. -/
def start_pipe_rel (container_id : String) : String :=
  "/tmp/bento-start-" ++ container_id

/- ======================================================================
   Observable events of a run
   ====================================================================== -/

inductive Event
  | cleanupPipes
  | createPipes
  | forkBridge
  | helper (cmd : String) (pid container_id host_id count : Nat)
  | sendByte (b : Nat)
  | killBridge
  | mkfifoAttempt (ok : Bool)
  | saveState (st : ContainerState)
  | unshareUser
  | denySetgroups
  | unshareFlags (flags : List CloneFlag)
  | forkInit
  | sendInitPid (pid : Int)
  | mountPrivate
  | validateId (id : String) (ok : Bool)
  | populate (m : RootfsPopulationMethod)
  | bindMountRootfs
  | mountProc
  | mountSys
  | mountDev
  | pivotRoot
  | chdirRoot
  | cleanupOldRoot
  | setHostname (h : String)
  | setupEnv
  | readStartToken (ok : Bool)
  | execCommand (args : List String)
  | probeAlive (pid : Int)
  | writeBytes (bs : List Nat)
  | removeFifo
deriving DecidableEq, Repr

/-- A run of one embedded function: its result plus the ordered list of
events it performed (events before a failure are kept). -/
def Run (α : Type) : Type := Except String α × List Event

def Run.ok {α : Type} (a : α) : Run α := (Except.ok a, [])

def Run.err {α : Type} (msg : String) : Run α := (Except.error msg, [])

def emit (e : Event) : Run Unit := (Except.ok (), [e])

def liftE {α : Type} (x : Except String α) : Run α := (x, [])

def Run.bind {α β : Type} (x : Run α) (f : α → Run β) : Run β :=
  match x.1 with
  | Except.error m => (Except.error m, x.2)
  | Except.ok a => ((f a).1, x.2 ++ (f a).2)

instance : Monad Run where
  pure := Run.ok
  bind := Run.bind

/-- `if ok then continue else fail` for a fallible call whose only modelled
content is its success bit. -/
def require (ok : Bool) (msg : String) : Run Unit :=
  if ok then Run.ok () else Run.err msg

/- ======================================================================
   Sync signal protocol (process.rs lines 89-112 and 236-258)
   ====================================================================== -/

inductive SyncSignal
  | ready
  | mapped
deriving DecidableEq, Repr

/-- `SyncSignal::as_byte`: Ready = b'R' = 82, Mapped = b'M' = 77. -/
def SyncSignal.as_byte : SyncSignal → Nat
  | SyncSignal.ready => 82
  | SyncSignal.mapped => 77

/-- `SyncSignal::from_byte` (process.rs lines 101-107). -/
def SyncSignal.from_byte (b : Nat) : Except String SyncSignal :=
  if b = 82 then Except.ok SyncSignal.ready
  else if b = 77 then Except.ok SyncSignal.mapped
  else Except.error "Invalid sync signal byte"

/-- `pipe_wait` (process.rs lines 243-258): `delivered` is the byte the read
returns, or none for a read error.  Any byte other than the expected
signal's byte is an error. -/
def pipe_wait (delivered : Option Nat) (expected : SyncSignal) : Except String Unit :=
  match delivered with
  | none => Except.error "Failed to receive signal"
  | some b =>
    match SyncSignal.from_byte b with
    | Except.error m => Except.error m
    | Except.ok received =>
      if received = expected then Except.ok ()
      else Except.error "unexpected sync signal"

/-- `pipe_signal` (process.rs lines 236-241): on success the signal byte is
observably written; a failed write delivers nothing. -/
def pipe_signal (writeOk : Bool) (s : SyncSignal) : Run Unit :=
  if writeOk then emit (Event.sendByte s.as_byte) else Run.err "Failed to send signal"

/- ======================================================================
   Mapping helpers (syscalls.rs lines 112-184)
   ====================================================================== -/

/-- `execute_mapping_helper` (syscalls.rs lines 112-163): the helper event
records the exact argument vector `<cmd> <pid> <container_id> <host_id>
<count>`; a spawn failure or non-zero exit is an error. -/
def execute_mapping_helper (cmd : String) (child_pid container_id host_id count : Nat)
    (spawnOk exitZero : Bool) : Run Unit := do
  emit (Event.helper cmd child_pid container_id host_id count)
  if spawnOk then
    if exitZero then pure ()
    else Run.err (cmd ++ " failed with non-zero exit status")
  else Run.err ("Failed to execute " ++ cmd)

/- ======================================================================
   Worlds: oracles for the outcomes of external calls
   ====================================================================== -/

/-- waitpid outcome as seen by the caller. -/
inductive WaitRes
  | exited (status : Int)
  | echild
  | failure
  | other
deriving DecidableEq, Repr

structure CreateWorld where
  hostUid : Nat
  hostGid : Nat
  readyByte : Option Nat
  gidmapSpawn : Bool
  gidmapExitZero : Bool
  uidmapSpawn : Bool
  uidmapExitZero : Bool
  sendMapped : Bool
  pidRead : Option Int
  homeSet : Bool
  tmpDirOk : Bool
  mkfifoOk : Bool
  saveOk : Bool
  bridgeWait : WaitRes
  createdAt : String
deriving Repr

/-- `cleanup_named_pipes` (process.rs lines 948-969): fails only when HOME is
unset; removal failures are merely logged. -/
def cleanup_named_pipes (homeSet : Bool) : Run Unit := do
  require homeSet "HOME environment variable not set"
  emit Event.cleanupPipes

/-- `save_container_state` (process.rs lines 61-69): serializes the record and
writes the state file. -/
def save_container_state (saveOk : Bool) (st : ContainerState) : Run Unit := do
  require saveOk "Failed to write state file"
  emit (Event.saveState st)

/-- `map_user_namespace_rootless` (syscalls.rs lines 167-184): newgidmap with
`<pid> 0 <host_gid> 1` first, then newuidmap with `<pid> 0 <host_uid> 1`. -/
def map_user_namespace_rootless (child_pid : Nat) (w : CreateWorld) : Run Unit := do
  execute_mapping_helper "newgidmap" child_pid 0 w.hostGid 1 w.gidmapSpawn w.gidmapExitZero
  execute_mapping_helper "newuidmap" child_pid 0 w.hostUid 1 w.uidmapSpawn w.uidmapExitZero

/-- The four-byte little-endian init PID read (process.rs lines 303-305). -/
def read_init_pid (r : Option Int) : Run Int :=
  match r with
  | none => Run.err "Failed to receive init PID"
  | some p => Run.ok p

/-- The orchestrator's wait on the bridge (process.rs lines 399-415): a
non-zero exit status or a wait failure other than ECHILD is an error;
ECHILD and other statuses are accepted. -/
def wait_bridge (r : WaitRes) : Run Unit :=
  match r with
  | WaitRes.exited s => if s ≠ 0 then Run.err "Bridge exited with non-zero status" else Run.ok ()
  | WaitRes.echild => Run.ok ()
  | WaitRes.failure => Run.err "Bridge wait failed"
  | WaitRes.other => Run.ok ()

/-- The state record the orchestrator persists (process.rs lines 336-345):
`ContainerState::new` (status "created") with `start_pipe_path` then set to
the container-relative FIFO path. -/
def createdStateOf (cfg : Config) (final_container_pid : Int) (createdAt : String) :
    ContainerState :=
  { ContainerState.new cfg.container_id final_container_pid cfg.bundle_path createdAt with
    start_pipe_path := some (start_pipe_rel cfg.container_id) }

/-- First half of `orchestrator_handler` (process.rs lines 287-305): wait for
R, map GID then UID, send M, read the init PID. -/
def orch_sync_phase (bridge_pid : Nat) (w : CreateWorld) : Run Int := do
  liftE (pipe_wait w.readyByte SyncSignal.ready)
  map_user_namespace_rootless bridge_pid w
  pipe_signal w.sendMapped SyncSignal.mapped
  read_init_pid w.pidRead

/-- Second half of `orchestrator_handler` (process.rs lines 308-428): clean up
stale pipes; create `<rootfs>/tmp`; mkfifo the resume FIFO (failure only
logged, the run continues); build and save the state record; wait for the
bridge. -/
def orch_state_phase (cfg : Config) (w : CreateWorld) (final_container_pid : Int) : Run Unit := do
  cleanup_named_pipes w.homeSet
  require w.homeSet "HOME environment variable not set"
  require w.tmpDirOk "Failed to create tmp directory in container rootfs"
  emit (Event.mkfifoAttempt w.mkfifoOk)
  save_container_state w.saveOk (createdStateOf cfg final_container_pid w.createdAt)
  wait_bridge w.bridgeWait

/-- `orchestrator_handler` (process.rs lines 287-428): the sync phase followed
by the state phase. -/
def orchestrator_handler (bridge_pid : Nat) (cfg : Config) (w : CreateWorld) : Run Unit :=
  Run.bind (orch_sync_phase bridge_pid w) (orch_state_phase cfg w)

/- ======================================================================
   Init process: rootfs preparation and the pause rendezvous
   ====================================================================== -/

structure InitWorld where
  mountPrivateOk : Bool
  rootfsDirsOk : Bool
  populateOk : Bool
  bindMountOk : Bool
  procOk : Bool
  sysOk : Bool
  devOk : Bool
  pivotOk : Bool
  chdirOk : Bool
  cleanupOldRootOk : Bool
  startOpenOk : Bool
  startBytes : List Nat
  cmdExists : Bool
  execOk : Bool
deriving Repr

/-- `prepare_rootfs` (fs.rs lines 32-83), line by line: make the mount tree
private, validate the id, create the rootfs directories, populate binaries,
bind-mount the rootfs onto itself, mount proc/sys/dev (each with its internal
fallback chain collapsed to one success bit), pivot_root, chdir to the new
root, clean up the old root. -/
def prepare_rootfs (container_id : String) (cfg : Config) (w : InitWorld) : Run Unit := do
  require w.mountPrivateOk "Failed to make root mount tree private"
  emit Event.mountPrivate
  if invalidContainerId container_id then do
    emit (Event.validateId container_id false)
    Run.err ("Invalid container_id: " ++ container_id)
  else do
    emit (Event.validateId container_id true)
    require w.rootfsDirsOk "Failed to create the rootfs directory."
    emit (Event.populate cfg.population_method)
    require w.populateOk "populate_rootfs_binaries failed"
    require w.bindMountOk "Failed to bind mount rootfs"
    emit Event.bindMountRootfs
    require w.procOk "rootless proc mount failed"
    emit Event.mountProc
    require w.sysOk "rootless sys mount failed"
    emit Event.mountSys
    require w.devOk "rootless dev mount failed"
    emit Event.mountDev
    require w.pivotOk "pivot_root failed in rootless container"
    emit Event.pivotRoot
    require w.chdirOk "Failed to chdir to new root"
    emit Event.chdirRoot
    require w.cleanupOldRootOk "Failed to clean up old root"
    emit Event.cleanupOldRoot

/-- The five bytes of `b"start"`. -/
def startToken : List Nat := [115, 116, 97, 114, 116]

/-- `read_start_signal` (process.rs lines 613-639): open the FIFO read-only,
`read_exact` a 5-byte buffer (`delivered` is the byte stream the FIFO
yields), accept exactly `b"start"`. -/
def read_start_signal (openOk : Bool) (delivered : List Nat) : Except String Unit :=
  if openOk then
    if delivered.length < 5 then
      Except.error "Failed to read complete start signal from pipe"
    else if delivered.take 5 = startToken then Except.ok ()
    else Except.error "Invalid start signal received"
  else Except.error "Failed to open start pipe"

/-- `exec_user_command` (process.rs lines 764-799): CString conversion fails
on interior NUL bytes; an empty argv is an error; otherwise execvp replaces
the process (recorded as an `execCommand` event) or fails. -/
def exec_user_command (cfg : Config) (execOk : Bool) : Int × List Event :=
  if cfg.args.any (fun a => a.toList.contains (Char.ofNat 0)) then (1, [])
  else if cfg.args.isEmpty then (1, [])
  else if execOk then (0, [Event.execCommand cfg.args])
  else (1, [])

/-- `init_handler_with_pause` (process.rs lines 518-610): prepare the rootfs
(exit 1 on failure), set the hostname (its failure is tolerated by
`set_container_hostname`), set up the environment, block on the resume FIFO
and verify the token (exit 1 on failure), check argv[0] exists, exec. -/
def init_handler_with_pause (cfg : Config) (w : InitWorld) : Int × List Event :=
  match prepare_rootfs cfg.container_id cfg w with
  | (Except.error _, evs) => (1, evs)
  | (Except.ok _, evs) =>
    let evs := evs ++ [Event.setHostname cfg.hostname, Event.setupEnv]
    match read_start_signal w.startOpenOk w.startBytes with
    | Except.error _ => (1, evs ++ [Event.readStartToken false])
    | Except.ok _ =>
      let evs := evs ++ [Event.readStartToken true]
      if cfg.args.isEmpty then
        let r := exec_user_command cfg w.execOk
        (r.1, evs ++ r.2)
      else if w.cmdExists then
        let r := exec_user_command cfg w.execOk
        (r.1, evs ++ r.2)
      else (1, evs)

/- ======================================================================
   Bridge process (process.rs lines 434-512)
   ====================================================================== -/

structure BridgeWorld where
  unshareUserOk : Bool
  setgroupsOk : Bool
  sendReady : Bool
  mappedByte : Option Nat
  unshareRemainingOk : Bool
  forkInitOk : Bool
  sendPidOk : Bool
  initPid : Int
deriving Repr

/-- `setup_user_namespace` (process.rs lines 463-468). -/
def setup_user_namespace (bw : BridgeWorld) : Run Unit := do
  require bw.unshareUserOk "Failed to unshare user namespace"
  emit Event.unshareUser
  require bw.setgroupsOk "Failed to disable setgroups"
  emit Event.denySetgroups
  pipe_signal bw.sendReady SyncSignal.ready

/-- `wait_for_mapping` (process.rs lines 470-474). -/
def wait_for_mapping (bw : BridgeWorld) : Run Unit :=
  liftE (pipe_wait bw.mappedByte SyncSignal.mapped)

/-- `create_remaining_namespaces` (process.rs lines 476-479), which calls
`unshare_remaining_namespaces` with exactly
`unshare_remaining_namespaces_flags`. -/
def create_remaining_namespaces (bw : BridgeWorld) : Run Unit := do
  require bw.unshareRemainingOk "Failed to create remaining namespaces"
  emit (Event.unshareFlags unshare_remaining_namespaces_flags)

/-- `bridge_handler` (process.rs lines 434-460) plus
`create_init_with_start_pipe` (lines 481-512).  The returned integer is the
bridge's exit code; the trace serialises the bridge's own events, then the
fork of init, then the bridge parent branch (the PID write), then the init
child's events. -/
def bridge_handler (cfg : Config) (bw : BridgeWorld) (iw : InitWorld) : Int × List Event :=
  match (do
      setup_user_namespace bw
      wait_for_mapping bw
      create_remaining_namespaces bw : Run Unit) with
  | (Except.error _, evs) => (1, evs)
  | (Except.ok _, evs) =>
    if bw.forkInitOk then
      let parentEvs := if bw.sendPidOk then [Event.sendInitPid bw.initPid] else []
      let parentCode : Int := if bw.sendPidOk then 0 else 1
      let child := init_handler_with_pause cfg iw
      (parentCode, evs ++ [Event.forkInit] ++ parentEvs ++ child.2)
    else (1, evs)

/- ======================================================================
   create_container (process.rs lines 264-281) with
   fork_intermediate (syscalls.rs lines 19-36)
   ====================================================================== -/

/-- The second waitpid in `fork_intermediate` (syscalls.rs line 27): any
`Ok(_)` status is accepted, any `Err` (including ECHILD, which this call
site does not handle) propagates. -/
def fork_outer_wait (r : WaitRes) : Except String Unit :=
  match r with
  | WaitRes.exited _ => Except.ok ()
  | WaitRes.other => Except.ok ()
  | WaitRes.echild => Except.error "waitpid failed with ECHILD"
  | WaitRes.failure => Except.error "waitpid failed"

/-- What the second waitpid actually observes.  It runs only after
`orchestrator_handler` returned Ok, i.e. after the orchestrator's own
`waitpid(bridge_pid, None)` (process.rs lines 399-415) has either reaped the
terminated bridge (Exited or, via the catch-all arm, Signaled) or itself
observed ECHILD.  A second wait on the same pid therefore always fails with
ECHILD; it is not a free outcome. -/
def outer_wait_result : WaitRes := WaitRes.echild

structure SystemWorld where
  pipesOk : Bool
  bridgePid : Nat
deriving Repr

/-- `create_container` (process.rs lines 264-281): clean stale pipes, create
the three pipe pairs, fork the bridge; the parent runs
`orchestrator_handler` and then the outer waitpid of `fork_intermediate`,
whose ECHILD failure propagates; the returned result is what `create`
reports (so a create that persisted state still ends in the ECHILD error).
The trace serialises the pre-fork events, the fork, the bridge-and-init
side, then the orchestrator side.  There is no container-id validation
anywhere on this path. -/
def create_container_run (cfg : Config) (sw : SystemWorld) (cw : CreateWorld)
    (bw : BridgeWorld) (iw : InitWorld) : Run Unit :=
  match cleanup_named_pipes cw.homeSet with
  | (Except.error m, evs) => (Except.error m, evs)
  | (Except.ok _, evs0) =>
    if sw.pipesOk then
      let bridgeSide := (bridge_handler cfg bw iw).2
      let orch := orchestrator_handler sw.bridgePid cfg cw
      let result :=
        match orch.1 with
        | Except.error m => Except.error m
        | Except.ok _ => fork_outer_wait outer_wait_result
      (result, evs0 ++ [Event.createPipes, Event.forkBridge] ++ bridgeSide ++ orch.2)
    else (Except.error "Failed to create pipe", evs0)

/- ======================================================================
   start_container (process.rs lines 801-902)
   ====================================================================== -/

structure StartWorld where
  loadResult : Except String ContainerState
  processAlive : Bool
  homeSet : Bool
  openPipeOk : Bool
  writeOk : Bool
  flushOk : Bool
  saveOk : Bool
deriving Repr

/-- `start_container` (process.rs lines 801-902), line by line: load the
state; probe liveness with `kill(pid, SIGCONT)`; on a dead process persist
status "stopped" and fail; reject status "running" and any status other
than "created"; require a recorded FIFO path; open the host-side FIFO;
`write_all(b"start")`; flush; persist status "running"; unlink the FIFO. -/
def start_container (w : StartWorld) : Run Unit := do
  let state ← liftE w.loadResult
  emit (Event.probeAlive state.pid)
  if w.processAlive then do
    if state.status = "running" then
      Run.err "Container appears to already be running"
    else if state.status ≠ "created" then
      Run.err "Container is not in created state"
    else do
      let _pipe_rel ← (match state.start_pipe_path with
        | none => Run.err "No start pipe path in container state"
        | some p => Run.ok p : Run String)
      require w.homeSet "HOME environment variable not set"
      require w.openPipeOk "Failed to open start pipe"
      if w.writeOk then emit (Event.writeBytes startToken)
      else Run.err "Failed to write start signal"
      require w.flushOk "Failed to flush start signal"
      save_container_state w.saveOk { state with status := "running" }
      emit Event.removeFifo
  else do
    save_container_state w.saveOk { state with status := "stopped" }
    Run.err "Container process no longer exists"

/- ======================================================================
   Concrete sample configurations and worlds, used by the closed witness
   and counterexample statements
   ====================================================================== -/

def cfg0 : Config :=
  { root_path := "/tmp/bento-rootfs", args := ["/bin/sh"], hostname := "bento-container",
    rootless := true, bundle_path := ".", container_id := "demo",
    population_method := RootfsPopulationMethod.busyBox }

/-- The configuration of spec scenario 4 (`create ../escape`), an id
containing both ".." and "/". -/
def cfgDD : Config := { cfg0 with container_id := "../escape" }

def goodCW : CreateWorld :=
  { hostUid := 1000, hostGid := 1000, readyByte := some 82,
    gidmapSpawn := true, gidmapExitZero := true,
    uidmapSpawn := true, uidmapExitZero := true,
    sendMapped := true, pidRead := some 4242,
    homeSet := true, tmpDirOk := true, mkfifoOk := true, saveOk := true,
    bridgeWait := WaitRes.echild, createdAt := "1700000000" }

def goodBW : BridgeWorld :=
  { unshareUserOk := true, setgroupsOk := true, sendReady := true,
    mappedByte := some 77, unshareRemainingOk := true,
    forkInitOk := true, sendPidOk := true, initPid := 4242 }

def goodIW : InitWorld :=
  { mountPrivateOk := true, rootfsDirsOk := true, populateOk := true, bindMountOk := true,
    procOk := true, sysOk := true, devOk := true, pivotOk := true, chdirOk := true,
    cleanupOldRootOk := true, startOpenOk := true, startBytes := startToken,
    cmdExists := true, execOk := true }

def goodSW : SystemWorld := { pipesOk := true, bridgePid := 77 }

/-- A create world whose first sync read delivers the byte M where R was
expected: an unexpected sync byte, one of the handshake failures. -/
def badSyncCW : CreateWorld := { goodCW with readyByte := some 77 }

/-- The state record the orchestrator saves for `cfg0` under `goodCW`. -/
def savedState0 : ContainerState := createdStateOf cfg0 4242 goodCW.createdAt

/-- The helper-invocation event for the GID map of a bridge pid. -/
def gidEv (bp : Nat) (w : CreateWorld) : Event := Event.helper "newgidmap" bp 0 w.hostGid 1

/-- The helper-invocation event for the UID map of a bridge pid. -/
def uidEv (bp : Nat) (w : CreateWorld) : Event := Event.helper "newuidmap" bp 0 w.hostUid 1

/-- A start world whose probed init process is dead; the load succeeds with
`sampleState`. -/
def deadStartWorld : StartWorld :=
  { loadResult := Except.ok sampleState, processAlive := false, homeSet := true,
    openPipeOk := true, writeOk := true, flushOk := true, saveOk := true }

/-- A create world identical to `goodCW` except that the mkfifo call for the
resume FIFO fails. -/
def cwNoFifo : CreateWorld := { goodCW with mkfifoOk := false }

/-- The start world seen after a create whose mkfifo failed: the state file
loads fine, the init process is alive, but the FIFO cannot be opened. -/
def stwNoFifo : StartWorld :=
  { loadResult := Except.ok (createdStateOf cfg0 4242 cwNoFifo.createdAt),
    processAlive := true, homeSet := true, openPipeOk := false,
    writeOk := true, flushOk := true, saveOk := true }

end Bento

deriving instance DecidableEq for Except

namespace Bento

/- ======================================================================
   Run plumbing lemmas
   ====================================================================== -/

@[simp] theorem bind_eq_run_bind {α β : Type} (x : Run α) (f : α → Run β) :
    x >>= f = Run.bind x f := rfl

@[simp] theorem monad_bind_eq_run_bind {α β : Type} (x : Run α) (f : α → Run β) :
    Bind.bind x f = Run.bind x f := rfl

@[simp] theorem pure_run {α : Type} (a : α) : (pure a : Run α) = (Except.ok a, []) := rfl

@[simp] theorem emit_fst (e : Event) : (emit e).1 = Except.ok () := rfl

@[simp] theorem emit_snd (e : Event) : (emit e).2 = [e] := rfl

@[simp] theorem liftE_fst {α : Type} (x : Except String α) : (liftE x).1 = x := rfl

@[simp] theorem liftE_snd {α : Type} (x : Except String α) : (liftE x).2 = ([] : List Event) := rfl

@[simp] theorem run_ok_fst {α : Type} (a : α) : (Run.ok a).1 = Except.ok a := rfl

@[simp] theorem run_ok_snd {α : Type} (a : α) : (Run.ok a).2 = ([] : List Event) := rfl

@[simp] theorem run_err_fst {α : Type} (m : String) : (Run.err (α := α) m).1 = Except.error m := rfl

@[simp] theorem run_err_snd {α : Type} (m : String) : (Run.err (α := α) m).2 = ([] : List Event) := rfl

@[simp] theorem require_snd (b : Bool) (m : String) : (require b m).2 = ([] : List Event) := by
  cases b <;> rfl

@[simp] theorem require_fst (b : Bool) (m : String) :
    (require b m).1 = if b then Except.ok () else Except.error m := by
  cases b <;> rfl

theorem run_bind_err {α β : Type} {x : Run α} {m : String} (f : α → Run β)
    (h : x.1 = Except.error m) : Run.bind x f = (Except.error m, x.2) := by
  simp [Run.bind, h]

theorem run_bind_ok {α β : Type} {x : Run α} {a : α} (f : α → Run β)
    (h : x.1 = Except.ok a) : Run.bind x f = ((f a).1, x.2 ++ (f a).2) := by
  simp [Run.bind, h]

/-- Membership in the trace of a bound run decomposes into the two stages. -/
@[simp] theorem mem_run_bind {α β : Type} {x : Run α} {f : α → Run β} {e : Event} :
    e ∈ (Run.bind x f).2 ↔ e ∈ x.2 ∨ ∃ a, x.1 = Except.ok a ∧ e ∈ (f a).2 := by
  unfold Run.bind
  cases hx : x.1 <;> simp [hx]

/-- A bound run succeeds exactly when both stages succeed. -/
@[simp] theorem run_bind_fst_eq_ok {α β : Type} {x : Run α} {f : α → Run β} {b : β} :
    (Run.bind x f).1 = Except.ok b ↔ ∃ a, x.1 = Except.ok a ∧ (f a).1 = Except.ok b := by
  unfold Run.bind
  cases hx : x.1 <;> simp [hx]

@[simp] theorem require_fst_eq_ok {b : Bool} {m : String} {x : Unit} :
    (require b m).1 = Except.ok x ↔ b = true := by
  cases b <;> simp [require, Run.ok, Run.err]

@[simp] theorem mem_ite_run_snd {α : Type} {c : Prop} [Decidable c] {A B : Run α} {e : Event} :
    (e ∈ (if c then A else B).2) ↔ ((c ∧ e ∈ A.2) ∨ (¬ c ∧ e ∈ B.2)) := by
  split <;> simp_all

@[simp] theorem ite_run_fst_eq_ok {α : Type} {c : Prop} [Decidable c] {A B : Run α} {a : α} :
    ((if c then A else B).1 = Except.ok a) ↔
      ((c ∧ A.1 = Except.ok a) ∨ (¬ c ∧ B.1 = Except.ok a)) := by
  split <;> simp_all

/- ======================================================================
   Structural lemmas about the orchestrator sync phase
   ====================================================================== -/

/-- The sync phase trace is one of four prefixes: nothing, the gid helper
only, both helpers, or both helpers followed by the M byte; the M byte is
reached only when both helpers spawned, exited zero, and the write
succeeded. -/
theorem orch_sync_phase_shape (bp : Nat) (w : CreateWorld) :
    (orch_sync_phase bp w).2 = [] ∨
    (orch_sync_phase bp w).2 = [gidEv bp w] ∨
    (orch_sync_phase bp w).2 = [gidEv bp w, uidEv bp w] ∨
    ((orch_sync_phase bp w).2 = [gidEv bp w, uidEv bp w, Event.sendByte 77] ∧
      w.gidmapSpawn = true ∧ w.gidmapExitZero = true ∧
      w.uidmapSpawn = true ∧ w.uidmapExitZero = true ∧ w.sendMapped = true) := by
  obtain ⟨uid, gid, rb, gs, gz, us, uz, sm, pr, hs, td, mk, sv, bw, ca⟩ := w
  cases rb with
  | none =>
    left
    simp [orch_sync_phase, pipe_wait, Run.bind]
  | some b =>
    by_cases hb : b = 82
    · subst hb
      cases gs <;> cases gz <;> cases us <;> cases uz <;> cases sm <;> cases pr <;>
        simp_all [orch_sync_phase, pipe_wait, SyncSignal.from_byte, Run.bind,
          map_user_namespace_rootless, execute_mapping_helper,
          pipe_signal, emit, require, Run.ok, Run.err, read_init_pid,
          gidEv, uidEv, SyncSignal.as_byte]
    · by_cases hb2 : b = 77
      · subst hb2
        left
        simp [orch_sync_phase, pipe_wait, SyncSignal.from_byte, Run.bind]
      · left
        simp [orch_sync_phase, pipe_wait, SyncSignal.from_byte, hb, hb2, Run.bind]

/-- The sync phase succeeds exactly when every handshake step succeeds: the
first read delivers the R byte, both mapping helpers spawn and exit zero,
the M write succeeds, and the PID read delivers a value. -/
theorem orch_sync_phase_ok_iff (bp : Nat) (w : CreateWorld) (p : Int) :
    (orch_sync_phase bp w).1 = Except.ok p ↔
      (w.readyByte = some 82 ∧ w.gidmapSpawn = true ∧ w.gidmapExitZero = true ∧
       w.uidmapSpawn = true ∧ w.uidmapExitZero = true ∧ w.sendMapped = true ∧
       w.pidRead = some p) := by
  obtain ⟨uid, gid, rb, gs, gz, us, uz, sm, pr, hs, td, mk, sv, bw, ca⟩ := w
  cases rb with
  | none => simp [orch_sync_phase, pipe_wait, Run.bind]
  | some b =>
    by_cases hb : b = 82
    · subst hb
      cases gs <;> cases gz <;> cases us <;> cases uz <;> cases sm <;> cases pr <;>
        simp_all [orch_sync_phase, pipe_wait, SyncSignal.from_byte, Run.bind,
          map_user_namespace_rootless, execute_mapping_helper,
          pipe_signal, emit, require, Run.ok, Run.err, read_init_pid,
          SyncSignal.as_byte]
    · by_cases hb2 : b = 77
      · subst hb2
        simp [orch_sync_phase, pipe_wait, SyncSignal.from_byte, Run.bind]
      · simp [orch_sync_phase, pipe_wait, SyncSignal.from_byte, hb, hb2, Run.bind]

@[simp] theorem wait_bridge_snd (r : WaitRes) : (wait_bridge r).2 = ([] : List Event) := by
  cases r <;> simp [wait_bridge, Run.ok, Run.err]
  split <;> simp

/-- The state phase of the orchestrator never writes a sync byte. -/
theorem orch_state_phase_no_sendByte (cfg : Config) (w : CreateWorld) (p : Int) (b : Nat) :
    Event.sendByte b ∉ (orch_state_phase cfg w p).2 := by
  simp [orch_state_phase, cleanup_named_pipes, save_container_state]

/- ======================================================================
   Structural lemmas about start_container and the init pause rendezvous
   ====================================================================== -/

/-- Every byte buffer that start_container ever writes to the resume FIFO is
exactly the token `b"start"`. -/
theorem start_writes_only_token (sw : StartWorld) (bs : List Nat)
    (h : Event.writeBytes bs ∈ (start_container sw).2) : bs = startToken := by
  obtain ⟨lr, pa, hs, op, wo, fo, so⟩ := sw
  cases lr with
  | error m => simp [start_container, Run.bind] at h
  | ok st =>
    obtain ⟨i, p, status, b, c, sp⟩ := st
    cases wo <;> rcases sp with _ | pp <;>
      simp_all [start_container, save_container_state, require, emit, Run.ok, Run.err, liftE]

/-- A successful start_container run did write the token to the FIFO. -/
theorem start_ok_writes_token (sw : StartWorld)
    (h : (start_container sw).1 = Except.ok ()) :
    Event.writeBytes startToken ∈ (start_container sw).2 := by
  obtain ⟨lr, pa, hs, op, wo, fo, so⟩ := sw
  cases lr with
  | error m => simp [start_container, Run.bind] at h
  | ok st =>
    obtain ⟨i, p, status, b, c, sp⟩ := st
    cases wo <;> rcases sp with _ | pp <;>
      simp_all [start_container, save_container_state, require, emit, Run.ok, Run.err, liftE]

/-- read_start_signal accepts a stream exactly when the FIFO opened, at least
five bytes arrived, and the five bytes read equal `b"start"`. -/
theorem read_start_signal_ok_iff (o : Bool) (d : List Nat) :
    read_start_signal o d = Except.ok () ↔
      (o = true ∧ ¬ d.length < 5 ∧ d.take 5 = startToken) := by
  cases o <;> simp [read_start_signal]
  split_ifs <;> simp_all

/-- prepare_rootfs never performs an exec. -/
theorem prep_no_exec (container_id : String) (cfg : Config) (w : InitWorld)
    (args : List String) :
    Event.execCommand args ∉ (prepare_rootfs container_id cfg w).2 := by
  cases hid : invalidContainerId container_id <;>
    simp [prepare_rootfs, hid, require, emit, Run.ok, Run.err]

/-- If the init process reached its exec, the pause rendezvous delivered the
exact token: the FIFO opened and the five bytes read were `b"start"`. -/
theorem init_exec_implies_token (cfg : Config) (iw : InitWorld) (args : List String)
    (h : Event.execCommand args ∈ (init_handler_with_pause cfg iw).2) :
    iw.startOpenOk = true ∧ ¬ iw.startBytes.length < 5 ∧
      iw.startBytes.take 5 = startToken := by
  rcases hpr : prepare_rootfs cfg.container_id cfg iw with ⟨r, evs⟩
  have hevs : (prepare_rootfs cfg.container_id cfg iw).2 = evs := by rw [hpr]
  cases r with
  | error m =>
    rw [init_handler_with_pause, hpr] at h
    simp at h
    exact absurd (hevs ▸ h) (prep_no_exec cfg.container_id cfg iw args)
  | ok u =>
    cases hrs : read_start_signal iw.startOpenOk iw.startBytes with
    | error m =>
      rw [init_handler_with_pause, hpr, hrs] at h
      simp at h
      exact absurd (hevs ▸ h) (prep_no_exec cfg.container_id cfg iw args)
    | ok u2 =>
      exact (read_start_signal_ok_iff iw.startOpenOk iw.startBytes).mp hrs

/-- With a valid id and every filesystem step succeeding, prepare_rootfs runs
all ten steps in source order. -/
theorem prep_ok (cfg : Config) (iw : InitWorld)
    (hval : invalidContainerId cfg.container_id = false)
    (h1 : iw.mountPrivateOk = true) (h2 : iw.rootfsDirsOk = true) (h3 : iw.populateOk = true)
    (h4 : iw.bindMountOk = true) (h5 : iw.procOk = true) (h6 : iw.sysOk = true)
    (h7 : iw.devOk = true) (h8 : iw.pivotOk = true) (h9 : iw.chdirOk = true)
    (h10 : iw.cleanupOldRootOk = true) :
    prepare_rootfs cfg.container_id cfg iw =
      (Except.ok (),
       [Event.mountPrivate, Event.validateId cfg.container_id true,
        Event.populate cfg.population_method, Event.bindMountRootfs, Event.mountProc,
        Event.mountSys, Event.mountDev, Event.pivotRoot, Event.chdirRoot,
        Event.cleanupOldRoot]) := by
  simp [prepare_rootfs, hval, h1, h2, h3, h4, h5, h6, h7, h8, h9, h10,
    Run.bind, require, emit, Run.ok, Run.err]

/-- When the rootfs steps succeed and the FIFO delivers the token, init
proceeds to exec the configured command. -/
theorem init_token_execs (cfg : Config) (iw : InitWorld)
    (hval : invalidContainerId cfg.container_id = false)
    (h1 : iw.mountPrivateOk = true) (h2 : iw.rootfsDirsOk = true) (h3 : iw.populateOk = true)
    (h4 : iw.bindMountOk = true) (h5 : iw.procOk = true) (h6 : iw.sysOk = true)
    (h7 : iw.devOk = true) (h8 : iw.pivotOk = true) (h9 : iw.chdirOk = true)
    (h10 : iw.cleanupOldRootOk = true)
    (ho : iw.startOpenOk = true) (hlen : ¬ iw.startBytes.length < 5)
    (htk : iw.startBytes.take 5 = startToken)
    (hne : cfg.args.isEmpty = false)
    (hnul : cfg.args.any (fun a => a.toList.contains (Char.ofNat 0)) = false)
    (hcmd : iw.cmdExists = true) (hexec : iw.execOk = true) :
    (init_handler_with_pause cfg iw).1 = 0 ∧
    Event.execCommand cfg.args ∈ (init_handler_with_pause cfg iw).2 := by
  have hprep := prep_ok cfg iw hval h1 h2 h3 h4 h5 h6 h7 h8 h9 h10
  have hrs : read_start_signal iw.startOpenOk iw.startBytes = Except.ok () :=
    (read_start_signal_ok_iff iw.startOpenOk iw.startBytes).mpr ⟨ho, hlen, htk⟩
  rw [init_handler_with_pause, hprep, hrs]
  have hnul2 : ¬ ∃ x ∈ cfg.args, Char.ofNat 0 ∈ x.data := by
    simpa using hnul
  simp [exec_user_command, hne, hnul2, hcmd, hexec]

/- ======================================================================
   Claim C1
   ====================================================================== -/

/-- C1 counterexample: the spec says the second unshare passes the five flags
PID, mount, UTS, IPC and cgroup, but the flag set in
`unshare_remaining_namespaces` contains neither CLONE_NEWIPC nor
CLONE_NEWCGROUP, so the two sets differ. -/
theorem c1_unshare_flags_counterexample :
    CloneFlag.newipc ∈ spec_remaining_namespace_flags ∧
    CloneFlag.newcgroup ∈ spec_remaining_namespace_flags ∧
    CloneFlag.newipc ∉ unshare_remaining_namespaces_flags ∧
    CloneFlag.newcgroup ∉ unshare_remaining_namespaces_flags := by decide

/-- C1 amended: after receiving the M signal the bridge's second unshare call
passes exactly CLONE_NEWPID, CLONE_NEWUTS and CLONE_NEWNS — three namespaces,
not five; IPC and cgroup namespaces are not created. -/
theorem c1_unshare_flags_amended :
    (∀ f : CloneFlag, f ∈ unshare_remaining_namespaces_flags ↔
      (f = CloneFlag.newpid ∨ f = CloneFlag.newuts ∨ f = CloneFlag.newns)) ∧
    (∀ (cfg : Config) (bw : BridgeWorld) (iw : InitWorld),
      bw.unshareUserOk = true → bw.setgroupsOk = true → bw.sendReady = true →
      bw.mappedByte = some 77 → bw.unshareRemainingOk = true → bw.forkInitOk = true →
      bw.sendPidOk = true →
      (bridge_handler cfg bw iw).2 =
        [Event.unshareUser, Event.denySetgroups, Event.sendByte 82,
         Event.unshareFlags unshare_remaining_namespaces_flags, Event.forkInit,
         Event.sendInitPid bw.initPid] ++ (init_handler_with_pause cfg iw).2) := by
  constructor
  · intro f
    cases f <;> decide
  · intro cfg bw iw hb1 hb2 hb3 hb4 hb5 hb6 hb7
    simp [bridge_handler, setup_user_namespace, wait_for_mapping, create_remaining_namespaces,
      pipe_signal, pipe_wait, SyncSignal.from_byte, SyncSignal.as_byte,
      hb1, hb2, hb3, hb4, hb5, hb6, hb7, Run.bind, require, emit, Run.ok, Run.err]

/-- C1 witness: the amended statement instantiated with the sample
configuration and an all-successful bridge world. -/
theorem c1_unshare_flags_witness :
    (bridge_handler cfg0 goodBW goodIW).2 =
      [Event.unshareUser, Event.denySetgroups, Event.sendByte 82,
       Event.unshareFlags unshare_remaining_namespaces_flags, Event.forkInit,
       Event.sendInitPid goodBW.initPid] ++ (init_handler_with_pause cfg0 goodIW).2 :=
  c1_unshare_flags_amended.2 cfg0 goodBW goodIW rfl rfl rfl rfl rfl rfl rfl

/- ======================================================================
   Claim C2
   ====================================================================== -/

/-- C2 counterexample: for the id "../escape" (which contains both "/" and
".."), create does not reject before forking: the bridge and init processes
are both spawned, and create's own result is the same (ECHILD wait error)
as for the valid id "demo" — no id rejection happens at the create level at
all. -/
theorem c2_validation_counterexample :
    invalidContainerId cfgDD.container_id = true ∧
    invalidContainerId cfg0.container_id = false ∧
    Event.forkBridge ∈ (create_container_run cfgDD goodSW goodCW goodBW goodIW).2 ∧
    Event.forkInit ∈ (create_container_run cfgDD goodSW goodCW goodBW goodIW).2 ∧
    (create_container_run cfgDD goodSW goodCW goodBW goodIW).1 =
      (create_container_run cfg0 goodSW goodCW goodBW goodIW).1 := by decide

/-- C2 amended: ids containing "/" or ".." are rejected only inside the init
process, by prepare_rootfs, strictly after both the bridge fork and the init
fork (init exits 1, while create performs no id validation of its own); the
empty id is never rejected anywhere. -/
theorem c2_validation_amended (cfg : Config) (sw : SystemWorld) (cw : CreateWorld)
    (bw : BridgeWorld) (iw : InitWorld)
    (hid : invalidContainerId cfg.container_id = true)
    (hhome : cw.homeSet = true) (hp : sw.pipesOk = true)
    (hb1 : bw.unshareUserOk = true) (hb2 : bw.setgroupsOk = true) (hb3 : bw.sendReady = true)
    (hb4 : bw.mappedByte = some 77) (hb5 : bw.unshareRemainingOk = true)
    (hb6 : bw.forkInitOk = true) (hb7 : bw.sendPidOk = true)
    (hm : iw.mountPrivateOk = true) :
    (init_handler_with_pause cfg iw).1 = 1 ∧
    (prepare_rootfs cfg.container_id cfg iw).1 =
      Except.error ("Invalid container_id: " ++ cfg.container_id) ∧
    invalidContainerId "" = false ∧
    ∃ l1 l2, (create_container_run cfg sw cw bw iw).2 = l1 ++ Event.forkInit :: l2 ∧
      Event.forkBridge ∈ l1 ∧ Event.validateId cfg.container_id false ∈ l2 ∧
      ∀ i b, Event.validateId i b ∉ l1 := by
  have hprep : prepare_rootfs cfg.container_id cfg iw =
      (Except.error ("Invalid container_id: " ++ cfg.container_id),
       [Event.mountPrivate, Event.validateId cfg.container_id false]) := by
    simp [prepare_rootfs, hid, hm, Run.bind, require, emit, Run.ok, Run.err]
  have hinit : init_handler_with_pause cfg iw =
      (1, [Event.mountPrivate, Event.validateId cfg.container_id false]) := by
    simp [init_handler_with_pause, hprep]
  have hbridge : (bridge_handler cfg bw iw).2 =
      [Event.unshareUser, Event.denySetgroups, Event.sendByte 82,
       Event.unshareFlags unshare_remaining_namespaces_flags, Event.forkInit,
       Event.sendInitPid bw.initPid, Event.mountPrivate,
       Event.validateId cfg.container_id false] := by
    simp [bridge_handler, setup_user_namespace, wait_for_mapping, create_remaining_namespaces,
      pipe_signal, pipe_wait, SyncSignal.from_byte, SyncSignal.as_byte,
      hb1, hb2, hb3, hb4, hb5, hb6, hb7, Run.bind, require, emit, Run.ok, Run.err, hinit]
  refine ⟨by simp [hinit], by simp [hprep], by decide, ?_⟩
  refine ⟨[Event.cleanupPipes, Event.createPipes, Event.forkBridge, Event.unshareUser,
           Event.denySetgroups, Event.sendByte 82,
           Event.unshareFlags unshare_remaining_namespaces_flags],
          Event.sendInitPid bw.initPid :: Event.mountPrivate ::
            Event.validateId cfg.container_id false ::
            (orchestrator_handler sw.bridgePid cfg cw).2, ?_, ?_, ?_, ?_⟩
  · simp [create_container_run, cleanup_named_pipes, hhome, hp, Run.bind, require, emit,
      Run.ok, Run.err, hbridge]
  · simp
  · simp
  · intro i b
    simp

/-- C2 witness: the amended statement instantiated at the id "../escape"
under all-successful worlds; the init process exits with code 1. -/
theorem c2_validation_witness :
    (init_handler_with_pause cfgDD goodIW).1 = 1 :=
  (c2_validation_amended cfgDD goodSW goodCW goodBW goodIW (by decide)
    rfl rfl rfl rfl rfl rfl rfl rfl rfl rfl).1

/- ======================================================================
   Claim C3
   ====================================================================== -/

/-- C3 counterexample: with no population method given on the command line,
clap substitutes the declared default "manual", so the effective method is
Manual, not BusyBox. -/
theorem c3_default_method_counterexample :
    populationMethodDefaultArg = "manual" ∧
    cliPopulationMethod none = RootfsPopulationMethod.manual ∧
    RootfsPopulationMethod.manual ≠ RootfsPopulationMethod.busyBox := by decide

/-- C3 amended: when the user does not pass a population method, the create
command defaults to the manual host-binary copy strategy; busybox is used
only when an explicit value other than "manual" is passed. -/
theorem c3_default_method_amended :
    cliPopulationMethod none = RootfsPopulationMethod.manual ∧
    ∀ s : String, s ≠ "manual" →
      cliPopulationMethod (some s) = RootfsPopulationMethod.busyBox := by
  refine ⟨rfl, ?_⟩
  intro s hs
  simp [cliPopulationMethod, parsePopulationMethod, hs]

/-- C3 witness: passing the explicit value "busybox" selects the BusyBox
strategy. -/
theorem c3_default_method_witness :
    cliPopulationMethod (some "busybox") = RootfsPopulationMethod.busyBox :=
  c3_default_method_amended.2 "busybox" (by decide)

/- ======================================================================
   Claim C4
   ====================================================================== -/

/-- C4 counterexample: the serialized state object of a sample record has
exactly six fields; the fields cgroup_path and cgroup_enabled claimed by the
spec schema are not among them. -/
theorem c4_state_schema_counterexample :
    "cgroup_path" ∈ specStateFieldNames ∧
    "cgroup_enabled" ∈ specStateFieldNames ∧
    "cgroup_path" ∉ stateJsonFieldNames sampleState ∧
    "cgroup_enabled" ∉ stateJsonFieldNames sampleState ∧
    stateJsonFieldNames sampleState =
      ["id", "pid", "status", "bundle_path", "created_at", "start_pipe_path"] := by decide

/-- C4 amended: every persisted container state file is a JSON object with
exactly the fields id, pid, status, bundle_path, created_at and
start_pipe_path, in that order; no cgroup_path or cgroup_enabled field is
ever serialized. -/
theorem c4_state_schema_amended (s : ContainerState) :
    stateJsonFieldNames s =
      ["id", "pid", "status", "bundle_path", "created_at", "start_pipe_path"] := rfl

/- ======================================================================
   Claim C5
   ====================================================================== -/

/-- C5: whenever the orchestrator sends the M byte, the trace up to that point
is exactly the invocation newgidmap with arguments
`<bridge_pid> 0 <host_gid> 1`, then newuidmap with
`<bridge_pid> 0 <host_uid> 1`, then the M byte — so the GID map strictly
precedes the UID map, both carry exactly those argument vectors, and M is
sent only after both helpers spawned and exited zero. -/
theorem c5_mapping_order (bp : Nat) (cfg : Config) (w : CreateWorld)
    (h : Event.sendByte 77 ∈ (orchestrator_handler bp cfg w).2) :
    (w.gidmapSpawn = true ∧ w.gidmapExitZero = true ∧
     w.uidmapSpawn = true ∧ w.uidmapExitZero = true) ∧
    ∃ rest, (orchestrator_handler bp cfg w).2 =
      Event.helper "newgidmap" bp 0 w.hostGid 1 ::
      Event.helper "newuidmap" bp 0 w.hostUid 1 ::
      Event.sendByte 77 :: rest := by
  unfold orchestrator_handler at h ⊢
  cases hx : (orch_sync_phase bp w).1 with
  | error m =>
    rw [run_bind_err _ hx] at h ⊢
    rcases orch_sync_phase_shape bp w with h1 | h1 | h1 | ⟨h1, hg, hgz, hu, huz, hm⟩
    · rw [h1] at h; simp at h
    · rw [h1] at h; simp [gidEv, uidEv] at h
    · rw [h1] at h; simp [gidEv, uidEv] at h
    · refine ⟨⟨hg, hgz, hu, huz⟩, [], ?_⟩
      simp [h1, gidEv, uidEv]
  | ok p =>
    rw [run_bind_ok _ hx] at h ⊢
    rcases List.mem_append.mp h with hin | hin
    · rcases orch_sync_phase_shape bp w with h1 | h1 | h1 | ⟨h1, hg, hgz, hu, huz, hm⟩
      · rw [h1] at hin; simp at hin
      · rw [h1] at hin; simp [gidEv, uidEv] at hin
      · rw [h1] at hin; simp [gidEv, uidEv] at hin
      · refine ⟨⟨hg, hgz, hu, huz⟩, (orch_state_phase cfg w p).2, ?_⟩
        simp [h1, gidEv, uidEv]
    · exact absurd hin (orch_state_phase_no_sendByte cfg w p 77)

/-- C5 witness: under the all-successful create world the M byte is in the
trace, and both helpers indeed succeeded. -/
theorem c5_mapping_order_witness :
    goodCW.gidmapSpawn = true ∧ goodCW.gidmapExitZero = true ∧
    goodCW.uidmapSpawn = true ∧ goodCW.uidmapExitZero = true :=
  (c5_mapping_order 77 cfg0 goodCW (by decide)).1

/- ======================================================================
   Claim C6
   ====================================================================== -/

/-- C6: the start side writes only the exact 5-byte token `b"start"` to the
resume FIFO, and a successful start wrote it; the init side accepts a stream
exactly when the FIFO opened and the five bytes read equal the token; init
reaches its exec only if the five bytes read were the token, and with the
token delivered (and the rootfs steps succeeding) init does exec the user
command. -/
theorem c6_start_token_exact :
    (∀ (sw : StartWorld) (bs : List Nat),
      Event.writeBytes bs ∈ (start_container sw).2 → bs = startToken) ∧
    (∀ sw : StartWorld, (start_container sw).1 = Except.ok () →
      Event.writeBytes startToken ∈ (start_container sw).2) ∧
    (∀ (o : Bool) (d : List Nat), read_start_signal o d = Except.ok () ↔
      (o = true ∧ ¬ d.length < 5 ∧ d.take 5 = startToken)) ∧
    (∀ (cfg : Config) (iw : InitWorld) (args : List String),
      Event.execCommand args ∈ (init_handler_with_pause cfg iw).2 →
      iw.startOpenOk = true ∧ ¬ iw.startBytes.length < 5 ∧
        iw.startBytes.take 5 = startToken) ∧
    (∀ (cfg : Config) (iw : InitWorld),
      invalidContainerId cfg.container_id = false →
      iw.mountPrivateOk = true → iw.rootfsDirsOk = true → iw.populateOk = true →
      iw.bindMountOk = true → iw.procOk = true → iw.sysOk = true →
      iw.devOk = true → iw.pivotOk = true → iw.chdirOk = true →
      iw.cleanupOldRootOk = true →
      iw.startOpenOk = true → ¬ iw.startBytes.length < 5 →
      iw.startBytes.take 5 = startToken →
      cfg.args.isEmpty = false →
      cfg.args.any (fun a => a.toList.contains (Char.ofNat 0)) = false →
      iw.cmdExists = true → iw.execOk = true →
      (init_handler_with_pause cfg iw).1 = 0 ∧
      Event.execCommand cfg.args ∈ (init_handler_with_pause cfg iw).2) :=
  ⟨start_writes_only_token, start_ok_writes_token, read_start_signal_ok_iff,
   init_exec_implies_token, init_token_execs⟩

/-- C6 witness: with the token delivered under the all-successful init world,
the init process of the sample configuration reaches its exec. -/
theorem c6_start_token_exact_witness :
    (init_handler_with_pause cfg0 goodIW).1 = 0 ∧
    Event.execCommand cfg0.args ∈ (init_handler_with_pause cfg0 goodIW).2 :=
  c6_start_token_exact.2.2.2.2 cfg0 goodIW (by decide) rfl rfl rfl rfl rfl rfl rfl rfl
    rfl rfl rfl (by decide) (by decide) (by decide) (by decide) rfl rfl

/- ======================================================================
   Claim C7
   ====================================================================== -/

/-- C7: when the recorded init PID is no longer alive, start_container
returns an error, persists the state with status "stopped", and never writes
any bytes to the resume FIFO. -/
theorem c7_dead_init_marks_stopped (sw : StartWorld) (st : ContainerState)
    (hlr : sw.loadResult = Except.ok st) (hdead : sw.processAlive = false)
    (hsv : sw.saveOk = true) :
    (start_container sw).1 = Except.error "Container process no longer exists" ∧
    Event.saveState { st with status := "stopped" } ∈ (start_container sw).2 ∧
    ∀ bs, Event.writeBytes bs ∉ (start_container sw).2 := by
  simp [start_container, hlr, hdead, hsv, save_container_state, Run.bind, require, emit,
    Run.ok, Run.err, liftE]

/-- C7 witness: starting the sample container whose init process is dead
fails with the no-longer-exists error. -/
theorem c7_dead_init_marks_stopped_witness :
    (start_container deadStartWorld).1 =
      Except.error "Container process no longer exists" :=
  (c7_dead_init_marks_stopped deadStartWorld sampleState rfl rfl rfl).1

/- ======================================================================
   Claim C8
   ====================================================================== -/

/-- C8 counterexample: with the handshake failing concretely (the first sync
read delivers M where R was expected) the orchestrator returns an error and
writes no state file, but its trace is empty — in particular it performs no
kill of the bridge subtree, contradicting the claim. -/
theorem c8_no_kill_counterexample :
    badSyncCW.readyByte = some 77 ∧
    (orchestrator_handler 77 cfg0 badSyncCW).1 = Except.error "unexpected sync signal" ∧
    (orchestrator_handler 77 cfg0 badSyncCW).2 = [] ∧
    Event.killBridge ∉ (orchestrator_handler 77 cfg0 badSyncCW).2 := by decide

/-- C8 amended: if any step of the create handshake fails (a pipe read error
or wrong byte on the R wait, a mapping helper spawn failure or non-zero
exit, a failed M write, or a failed init-PID read), the orchestrator returns
an error and no state file is written — but the orchestrator does not kill
the bridge subtree; it simply returns, leaving the bridge to exit on its
own. -/
theorem c8_handshake_failure_amended (bp : Nat) (cfg : Config) (w : CreateWorld)
    (h : w.readyByte ≠ some 82 ∨ w.gidmapSpawn = false ∨ w.gidmapExitZero = false ∨
         w.uidmapSpawn = false ∨ w.uidmapExitZero = false ∨ w.sendMapped = false ∨
         w.pidRead = none) :
    (∃ m, (orchestrator_handler bp cfg w).1 = Except.error m) ∧
    (∀ st, Event.saveState st ∉ (orchestrator_handler bp cfg w).2) ∧
    Event.killBridge ∉ (orchestrator_handler bp cfg w).2 := by
  have herr : ∃ m, (orch_sync_phase bp w).1 = Except.error m := by
    cases hx : (orch_sync_phase bp w).1 with
    | error m => exact ⟨m, rfl⟩
    | ok p =>
      have hok := (orch_sync_phase_ok_iff bp w p).mp hx
      rcases h with h | h | h | h | h | h | h <;> simp_all
  obtain ⟨m, hm⟩ := herr
  unfold orchestrator_handler
  rw [run_bind_err _ hm]
  refine ⟨⟨m, rfl⟩, ?_, ?_⟩
  · intro st
    rcases orch_sync_phase_shape bp w with h1 | h1 | h1 | ⟨h1, _⟩ <;>
      simp [h1, gidEv, uidEv]
  · rcases orch_sync_phase_shape bp w with h1 | h1 | h1 | ⟨h1, _⟩ <;>
      simp [h1, gidEv, uidEv]

/-- C8 witness: the amended statement instantiated at the concrete
wrong-byte world. -/
theorem c8_handshake_failure_witness :
    Event.killBridge ∉ (orchestrator_handler 77 cfg0 badSyncCW).2 :=
  (c8_handshake_failure_amended 77 cfg0 badSyncCW (Or.inl (by decide))).2.2

/- ======================================================================
   Claim C9
   ====================================================================== -/

/-- C9: serializing any ContainerState to JSON and deserializing the result
yields the original record on all six fields. -/
theorem c9_state_roundtrip (s : ContainerState) :
    ContainerState.fromJson (ContainerState.toJson s) = some s := by
  rcases s with ⟨i, p, st, b, c, sp⟩
  cases sp <;> rfl

/- ======================================================================
   Claim C10
   ====================================================================== -/

/-- C10 counterexample: at the concrete no-FIFO world the mkfifo failure is
only logged — the orchestrator completes successfully and the state file is
saved with status "created" — yet create_container does not return success:
it ends in the ECHILD error of fork_intermediate's second waitpid (as every
create does), refuting the claim's "returns success" conjunct. -/
theorem c10_no_success_counterexample :
    cwNoFifo.mkfifoOk = false ∧
    (orchestrator_handler goodSW.bridgePid cfg0 cwNoFifo).1 = Except.ok () ∧
    Event.saveState (createdStateOf cfg0 4242 cwNoFifo.createdAt) ∈
      (create_container_run cfg0 goodSW cwNoFifo goodBW goodIW).2 ∧
    (createdStateOf cfg0 4242 cwNoFifo.createdAt).status = "created" ∧
    (create_container_run cfg0 goodSW cwNoFifo goodBW goodIW).1 =
      Except.error "waitpid failed with ECHILD" := by decide

/-- C10 amended: when the mkfifo of the resume FIFO fails but every other
step succeeds, the orchestrator still saves the state file with status
"created" (the mkfifo error is only logged and aborts nothing), leaving a
container recorded as created that can never be started — a subsequent
start fails when it cannot open the missing FIFO, never having written the
token.  create_container itself still exits with an error, but not because
of the mkfifo failure: its final waitpid on the already-reaped bridge fails
with ECHILD on every create, FIFO or no FIFO. -/
theorem c10_fifo_failure_still_created (cfg : Config) (sw : SystemWorld) (cw : CreateWorld)
    (bw : BridgeWorld) (iw : InitWorld) (stw : StartWorld) (p : Int)
    (h1 : cw.readyByte = some 82) (h2 : cw.gidmapSpawn = true) (h3 : cw.gidmapExitZero = true)
    (h4 : cw.uidmapSpawn = true) (h5 : cw.uidmapExitZero = true) (h6 : cw.sendMapped = true)
    (h7 : cw.pidRead = some p) (h8 : cw.homeSet = true) (h9 : cw.tmpDirOk = true)
    (h10 : cw.saveOk = true) (h11 : cw.bridgeWait = WaitRes.echild)
    (hfifo : cw.mkfifoOk = false)
    (hsw1 : sw.pipesOk = true)
    (hstw : stw.loadResult = Except.ok (createdStateOf cfg p cw.createdAt))
    (hal : stw.processAlive = true) (hsh : stw.homeSet = true)
    (hop : stw.openPipeOk = false) :
    (orchestrator_handler sw.bridgePid cfg cw).1 = Except.ok () ∧
    (orchestrator_handler sw.bridgePid cfg cw).2 =
      [Event.helper "newgidmap" sw.bridgePid 0 cw.hostGid 1,
       Event.helper "newuidmap" sw.bridgePid 0 cw.hostUid 1,
       Event.sendByte 77, Event.cleanupPipes, Event.mkfifoAttempt false,
       Event.saveState (createdStateOf cfg p cw.createdAt)] ∧
    (createdStateOf cfg p cw.createdAt).status = "created" ∧
    (create_container_run cfg sw cw bw iw).1 =
      Except.error "waitpid failed with ECHILD" ∧
    Event.saveState (createdStateOf cfg p cw.createdAt) ∈
      (create_container_run cfg sw cw bw iw).2 ∧
    (start_container stw).1 = Except.error "Failed to open start pipe" ∧
    (∀ bs, Event.writeBytes bs ∉ (start_container stw).2) := by
  have hsync : orch_sync_phase sw.bridgePid cw =
      (Except.ok p, [Event.helper "newgidmap" sw.bridgePid 0 cw.hostGid 1,
                     Event.helper "newuidmap" sw.bridgePid 0 cw.hostUid 1,
                     Event.sendByte 77]) := by
    simp [orch_sync_phase, pipe_wait, h1, SyncSignal.from_byte, h2, h3, h4, h5, h6, h7,
      Run.bind, map_user_namespace_rootless, execute_mapping_helper, pipe_signal,
      SyncSignal.as_byte, emit, require, Run.ok, Run.err, read_init_pid, liftE]
  have hstate : orch_state_phase cfg cw p =
      (Except.ok (), [Event.cleanupPipes, Event.mkfifoAttempt false,
                      Event.saveState (createdStateOf cfg p cw.createdAt)]) := by
    simp [orch_state_phase, cleanup_named_pipes, h8, h9, hfifo, h10, h11,
      save_container_state, wait_bridge, Run.bind, require, emit, Run.ok, Run.err]
  have horch : orchestrator_handler sw.bridgePid cfg cw =
      (Except.ok (),
       [Event.helper "newgidmap" sw.bridgePid 0 cw.hostGid 1,
        Event.helper "newuidmap" sw.bridgePid 0 cw.hostUid 1,
        Event.sendByte 77, Event.cleanupPipes, Event.mkfifoAttempt false,
        Event.saveState (createdStateOf cfg p cw.createdAt)]) := by
    rw [orchestrator_handler, hsync]
    simp [Run.bind, hstate]
  have hstart : (start_container stw).1 = Except.error "Failed to open start pipe" ∧
      (∀ bs, Event.writeBytes bs ∉ (start_container stw).2) := by
    constructor
    · simp [start_container, hstw, hal, hsh, hop, createdStateOf, ContainerState.new,
        start_pipe_rel, Run.bind, require, emit, Run.ok, Run.err, liftE, save_container_state]
    · intro bs
      simp [start_container, hstw, hal, hsh, hop, createdStateOf, ContainerState.new,
        start_pipe_rel, require, emit, Run.ok, Run.err, liftE, save_container_state]
  refine ⟨by rw [horch], by rw [horch], rfl, ?_, ?_, hstart.1, hstart.2⟩
  · simp [create_container_run, cleanup_named_pipes, h8, hsw1, horch,
      fork_outer_wait, outer_wait_result, Run.bind, require, emit, Run.ok, Run.err]
  · simp [create_container_run, cleanup_named_pipes, h8, hsw1, horch,
      Run.bind, require, emit, Run.ok, Run.err]

/-- C10 witness: the concrete no-FIFO world: the orchestrator succeeds and
saves the created state, create itself ends in the ECHILD wait error, and
the subsequent start fails to open the FIFO. -/
theorem c10_fifo_failure_still_created_witness :
    (orchestrator_handler goodSW.bridgePid cfg0 cwNoFifo).1 = Except.ok () ∧
    (create_container_run cfg0 goodSW cwNoFifo goodBW goodIW).1 =
      Except.error "waitpid failed with ECHILD" ∧
    (start_container stwNoFifo).1 = Except.error "Failed to open start pipe" := by
  have h := c10_fifo_failure_still_created cfg0 goodSW cwNoFifo goodBW goodIW stwNoFifo
    4242 rfl rfl rfl rfl rfl rfl rfl rfl rfl rfl rfl rfl rfl rfl rfl rfl rfl
  exact ⟨h.1, h.2.2.2.1, h.2.2.2.2.2.1⟩

end Bento
